import Mathlib

/-!
Verification of the xpp build-configuration orchestrator (a Conan recipe,
`conanfile.py`, class `XppConan`) against its natural-language specification.

The recipe's data is embedded shallowly: the Profile carries the Conan
settings (`os`, `compiler`, `arch`, `build_type` — called `variant` in the
spec) and the `shared` option; `XppConan.layout` is the translation of the
`layout` method; the static `requires` list is copied verbatim.  Behaviour
that lives in Conan's library rather than in the recipe (descriptor file
emission, subprocess invocation, declaration validation) is modelled from
the spec, each such definition saying so in its doc comment.
-/

namespace Xpp

/-- Python's `str.lower()` on the character data of a string (the recipe
applies it to `str(self.settings.build_type)`). -/
def pyLower (s : String) : String := ⟨s.data.map Char.toLower⟩

/-- The target platform profile: Conan settings `os`, `compiler`, `arch`,
`build_type` (the spec's `variant`), plus the recipe's one option `shared`
(`none` when the caller supplies no explicit value). -/
structure Profile where
  os : String
  compiler : String
  arch : String
  variant : String
  shared : Option Bool
deriving DecidableEq, Repr

/-- The resolved filesystem layout (`self.folders.build`,
`self.folders.generators`, `self.folders.source`). -/
structure Layout where
  build_root : String
  generator_root : String
  source_root : String
deriving DecidableEq, Repr

/-- `child` lies strictly inside `parent`: it is `parent`, a path
separator, and a non-empty remainder. -/
def isStrictSubPath (child parent : String) : Prop :=
  ∃ rest, rest ≠ "" ∧ child = parent ++ "/" ++ rest

/-- The string contains no newline character. -/
def newlineFree (s : String) : Prop := '\n' ∉ s.data

instance (s : String) : Decidable (newlineFree s) :=
  inferInstanceAs (Decidable ('\n' ∉ s.data))

/-- One entry of the Dependency Declaration: package name and opaque
version specification. -/
structure DepEntry where
  name : String
  version_spec : String
deriving DecidableEq, Repr

/-- Configuration errors reported by the declaration validator. -/
inductive ConfigError where
  | DuplicateDependency (name : String)
  | MalformedEntry (index : Nat)
deriving DecidableEq, Repr

/-- The two descriptor categories of the spec's data model. -/
inductive Category where
  | toolchain
  | dependencyLocator
deriving DecidableEq, Repr

/-- A generated descriptor file. -/
structure DescriptorFile where
  category : Category
  path : String
  content : String
deriving DecidableEq, Repr

/-- The two external phases the orchestrator shells out to. -/
inductive Phase where
  | configure
  | build
deriving DecidableEq, Repr

/-- Captured outcome of one external subprocess invocation. -/
structure InvocationResult where
  phase : Phase
  exit_code : Int
  stdout : String
  stderr : String
deriving DecidableEq, Repr

/-- Terminal errors of the orchestrator. -/
inductive OrchestratorError where
  | Config (e : ConfigError)
  | ExternalFailure (phase : Phase) (result : InvocationResult)
deriving DecidableEq, Repr

/-- A filesystem: a map from paths to file contents. -/
abbrev FS := String → Option String

/-- Writing one file: the map updated at `path`. -/
def writeFile (fs : FS) (path content : String) : FS :=
  fun q => if q = path then some content else fs q

/-- Left-biased choice on optional contents. -/
def overr (a b : Option String) : Option String :=
  match a with
  | some c => some c
  | none => b

/-- The content of the last write to `q` in the list, when there is one. -/
def lastWrite : List DescriptorFile → String → Option String
  | [], _ => none
  | d :: ds, q => overr (lastWrite ds q) (if q = d.path then some d.content else none)

/-- Writing a list of descriptor files in order. -/
def applyWrites (ds : List DescriptorFile) (fs : FS) : FS :=
  ds.foldl (fun f d => writeFile f d.path d.content) fs

namespace XppConan

/-- Admissible values of the `shared` option
(`options = \x7b"shared": [True, False]\x7d`). -/
def options_shared_values : List Bool := [true, false]

/-- Declared default of the `shared` option
(`default_options = \x7b"shared": False\x7d`). -/
def default_options_shared : Bool := false

/-- The value of `shared` a Profile resolves to: the explicit value when
one was given, the declared default otherwise. -/
def sharedOf (p : Profile) : Bool := p.shared.getD default_options_shared

/-- The static `requires` list of the recipe, verbatim. -/
def requires : List String :=
  ["spdlog/1.14.1", "drogon/1.9.11", "nlohmann_json/3.11.3", "yaml-cpp/0.8.0",
   "protobuf/3.21.12", "sqlite3/3.44.0", "boost/1.83.0", "gtest/1.17.0"]

/-- The `layout` method: `build_type = str(self.settings.build_type).lower()`;
`self.folders.build = build_type`;
`self.folders.generators = f"\x7bbuild_type\x7d/generators"`;
`self.folders.source = "."`.  Total — no error path. -/
def layout (p : Profile) : Layout :=
  let build_type := pyLower p.variant
  { build_root := build_type,
    generator_root := build_type ++ "/generators",
    source_root := "." }

/-- The layout resolver exactly as the spec words it: normalize `variant`
to lower-case; `build_root = variant`; `generator_root` is `build_root`
joined with `"generators"`; `source_root = "."`. -/
def resolveSpec (p : Profile) : Layout :=
  { build_root := pyLower p.variant,
    generator_root := pyLower p.variant ++ "/" ++ "generators",
    source_root := "." }

/-- Name part of a `requires` reference string (before the first slash). -/
def requiresName (s : String) : String := ⟨s.data.takeWhile (fun c => c ≠ '/')⟩

/-- Version part of a `requires` reference string (after the first slash). -/
def requiresVersion (s : String) : String :=
  ⟨(s.data.dropWhile (fun c => c ≠ '/')).drop 1⟩

/-- The static `requires` list parsed into Dependency Declaration entries. -/
def requiresEntries : List DepEntry :=
  requires.map fun s => ⟨requiresName s, requiresVersion s⟩

/-- First name of the list that occurs again later in it. -/
def firstDup : List String → Option String
  | [] => none
  | n :: rest => if n ∈ rest then some n else firstDup rest

/-- An entry is malformed when its name or its version spec is empty. -/
def malformedEntry (e : DepEntry) : Bool := e.name == "" || e.version_spec == ""

/-- Modelled from the spec: the Dependency Declaration validator lives in
the external package manager, not in the recipe.  Per the spec it rejects
duplicate names with a duplicate-dependency error and entries with an
empty name or version spec with a malformed-entry error carrying the
index; an empty sequence is valid. -/
def validate (es : List DepEntry) : Except ConfigError Unit :=
  match firstDup (es.map DepEntry.name) with
  | some n => .error (.DuplicateDependency n)
  | none =>
    match es.findIdx? malformedEntry with
    | some i => .error (.MalformedEntry i)
    | none => .ok ()

/-- The concurrent-build executor selector the recipe chooses
(`tc.generator = "Ninja"`). -/
def toolchainGeneratorName : String := "Ninja"

/-- Modelled from the spec: the toolchain descriptor content written by the
CMakeToolchain helper (outside src) encodes the Profile's
os/compiler/architecture/normalized-variant together with the chosen
executor selector, one field per line. -/
def toolchainContentCore (os compiler arch build_type : String) : String :=
  "os=" ++ os ++ "\n" ++
  "compiler=" ++ compiler ++ "\n" ++
  "arch=" ++ arch ++ "\n" ++
  "build_type=" ++ build_type ++ "\n" ++
  "generator=" ++ toolchainGeneratorName

/-- Toolchain descriptor content for a Profile. -/
def toolchainContent (p : Profile) : String :=
  toolchainContentCore p.os p.compiler p.arch (pyLower p.variant)

/-- Modelled from the spec: the file name of the single toolchain
descriptor. -/
def toolchainFileName : String := "conan_toolchain.cmake"

/-- The toolchain generator of the `generate` method
(`CMakeToolchain(self)`, `tc.generator = "Ninja"`, `tc.generate()`):
a single descriptor under `generator_root`. -/
def toolchainGenerate (p : Profile) (l : Layout) : List DescriptorFile :=
  [⟨Category.toolchain, l.generator_root ++ "/" ++ toolchainFileName,
    toolchainContent p⟩]

/-- Modelled from the spec: the per-dependency locator descriptor content
written by the CMakeDeps helper (outside src). -/
def depLocatorContent (d : DepEntry) : String :=
  "name=" ++ d.name ++ "\n" ++ "version=" ++ d.version_spec

/-- The dependency-locator generator of the `generate` method
(`CMakeDeps(self)`, `deps.generate()`): one descriptor per dependency
entry, under `generator_root`. -/
def depsGenerate (l : Layout) (deps : List DepEntry) : List DescriptorFile :=
  deps.map fun d =>
    ⟨Category.dependencyLocator,
      l.generator_root ++ "/" ++ d.name ++ "-config.cmake",
      depLocatorContent d⟩

/-- The `generate` method: toolchain descriptor then dependency locators. -/
def generate (p : Profile) (l : Layout) (deps : List DepEntry) :
    List DescriptorFile :=
  toolchainGenerate p l ++ depsGenerate l deps

/-- Modelled from the spec: the generation-only orchestrator run —
validate, resolve layout, write every generated descriptor; on a
validation error return immediately with no filesystem writes. -/
def runGenerationOnly (p : Profile) (deps : List DepEntry) (fs : FS) :
    Except OrchestratorError Unit × FS :=
  match validate deps with
  | .error e => (.error (.Config e), fs)
  | .ok _ => (.ok (), applyWrites (generate p (layout p) deps) fs)

/-- Modelled from the spec: the `build` method invokes the external
configure phase and then the external build phase (`cmake.configure()`;
`cmake.build()`); the subprocess semantics (outside src) stop the run
with an external-failure error on a non-zero exit code.  The result is
paired with the list of phases actually invoked. -/
def build (ext : Phase → InvocationResult) :
    Except OrchestratorError (List InvocationResult) × List Phase :=
  let cfg := ext Phase.configure
  if cfg.exit_code ≠ 0 then
    (.error (.ExternalFailure Phase.configure cfg), [Phase.configure])
  else
    let bld := ext Phase.build
    if bld.exit_code ≠ 0 then
      (.error (.ExternalFailure Phase.build bld), [Phase.configure, Phase.build])
    else
      (.ok [cfg, bld], [Phase.configure, Phase.build])

end XppConan

/-- Appending the literal `"/generators"` is appending a separator and then
`"generators"`. -/
theorem append_slash_generators (s : String) :
    s ++ "/generators" = s ++ "/" ++ "generators" := by
  have h : ("/" ++ "generators" : String) = "/generators" := rfl
  rw [String.append_assoc, h]

/-- `pyLower` yields the empty string only on the empty string. -/
theorem pyLower_eq_empty_iff (s : String) : pyLower s = "" ↔ s = "" := by
  cases s with
  | mk data =>
    constructor
    · intro h
      have hd : data.map Char.toLower = [] := congrArg String.data h
      have hn : data = [] := List.map_eq_nil_iff.mp hd
      rw [hn]
    · intro h
      rw [h]
      rfl

/-- C1: for every Profile, layout resolution computes exactly what the spec
states — variant lower-cased, `build_root` the normalized variant,
`generator_root` the join of `build_root` with `"generators"`,
`source_root` the constant `"."` — with no error path (`layout` is total
by construction). -/
theorem XppConan.layout_matches_resolveSpec (p : Profile) :
    XppConan.layout p = XppConan.resolveSpec p := by
  simp only [XppConan.layout, XppConan.resolveSpec]
  rw [append_slash_generators]

/-- C3: two Profiles whose variants normalize to the same lower-case string
but which differ in os, compiler or architecture resolve to the same
`build_root` (the documented collision). -/
theorem XppConan.layout_collision_same_variant (p₁ p₂ : Profile)
    (hv : pyLower p₁.variant = pyLower p₂.variant)
    (hdiff : p₁.os ≠ p₂.os ∨ p₁.compiler ≠ p₂.compiler ∨ p₁.arch ≠ p₂.arch) :
    (XppConan.layout p₁).build_root = (XppConan.layout p₂).build_root := by
  simp only [XppConan.layout]
  exact hv

/-- Witness for C3 at two concrete Profiles differing in all of os, compiler
and architecture but agreeing on the normalized variant. -/
theorem XppConan.layout_collision_same_variant_witness :
    pyLower "Debug" = pyLower "DEBUG" ∧
      (XppConan.layout ⟨"linux", "gcc-13", "x86_64", "Debug", none⟩).build_root =
        (XppConan.layout ⟨"windows", "msvc", "armv8", "DEBUG", some true⟩).build_root :=
  ⟨by decide,
   XppConan.layout_collision_same_variant
     ⟨"linux", "gcc-13", "x86_64", "Debug", none⟩
     ⟨"windows", "msvc", "armv8", "DEBUG", some true⟩
     (by decide) (Or.inl (by decide))⟩

/-- C4: for every Profile the resolved `generator_root` lies strictly inside
the resolved `build_root`. -/
theorem XppConan.generator_root_strict_subpath (p : Profile) :
    isStrictSubPath (XppConan.layout p).generator_root
      (XppConan.layout p).build_root := by
  refine ⟨"generators", by decide, ?_⟩
  simp only [XppConan.layout]
  exact append_slash_generators _

/-- C5 counterexample: the Profile whose variant is the empty string resolves
to an empty `build_root` path component — no default name is substituted. -/
theorem XppConan.empty_variant_gives_empty_build_root :
    (XppConan.layout ⟨"linux", "gcc-13", "x86_64", "", none⟩).build_root = "" := by
  decide

/-- C5 amended: layout resolution performs no fallback for an empty or
unrecognized variant — `build_root` is exactly the lower-cased variant
verbatim, and it is empty precisely when the variant is empty. -/
theorem XppConan.build_root_eq_lowered_variant_no_fallback (p : Profile) :
    (XppConan.layout p).build_root = pyLower p.variant ∧
      ((XppConan.layout p).build_root = "" ↔ p.variant = "") :=
  ⟨rfl, pyLower_eq_empty_iff p.variant⟩

/-- C9: a Profile constructed without an explicit `shared` value resolves
`shared` to `False` (the recipe's declared default), and the declared
option domain admits exactly the values `True` and `False`. -/
theorem XppConan.shared_option_default_false (p : Profile)
    (h : p.shared = none) :
    XppConan.sharedOf p = false ∧
      XppConan.default_options_shared = false ∧
      (∀ v : Bool, v ∈ XppConan.options_shared_values ↔ (v = true ∨ v = false)) := by
  refine ⟨?_, rfl, ?_⟩
  · simp [XppConan.sharedOf, h, XppConan.default_options_shared]
  · intro v
    cases v <;> simp [XppConan.options_shared_values]

/-- Witness for C9 at a concrete Profile carrying no explicit `shared`. -/
theorem data_newline : ("\n" : String).data = ['\n'] := rfl

/-- Splitting a character list at a newline that neither left part
contains is unambiguous. -/
theorem append_newline_inj :
    ∀ (l l' r r' : List Char), '\n' ∉ l → '\n' ∉ l' →
      l ++ '\n' :: r = l' ++ '\n' :: r' → l = l' ∧ r = r'
  | [], [], _, _, _, _, e => ⟨rfl, by simpa using e⟩
  | [], c' :: cs', _, _, _, hl', e => by
    exfalso
    simp only [List.nil_append, List.cons_append] at e
    have hc : '\n' = c' := (List.cons.inj e).1
    refine hl' ?_
    rw [hc]
    exact List.mem_cons_self c' cs'
  | c :: cs, [], _, _, hl, _, e => by
    exfalso
    simp only [List.cons_append, List.nil_append] at e
    have hc : c = '\n' := (List.cons.inj e).1
    refine hl ?_
    rw [← hc]
    exact List.mem_cons_self c cs
  | c :: cs, c' :: cs', r, r', hl, hl', e => by
    simp only [List.cons_append] at e
    obtain ⟨hc, ht⟩ := List.cons.inj e
    have hcs : '\n' ∉ cs := fun hm => hl (List.mem_cons_of_mem _ hm)
    have hcs' : '\n' ∉ cs' := fun hm => hl' (List.mem_cons_of_mem _ hm)
    obtain ⟨h1, h2⟩ := append_newline_inj cs cs' r r' hcs hcs' ht
    exact ⟨by rw [hc, h1], h2⟩

/-- A key-prefixed, newline-terminated line determines its value and the
remainder of the stream. -/
theorem key_line_inj (k o o' r r' : List Char)
    (ho : '\n' ∉ o) (ho' : '\n' ∉ o')
    (e : k ++ (o ++ '\n' :: r) = k ++ (o' ++ '\n' :: r')) :
    o = o' ∧ r = r' :=
  append_newline_inj o o' r r' ho ho' (List.append_cancel_left e)

/-- Character data of the toolchain descriptor content, in the
line-grouped shape the injectivity argument consumes. -/
theorem toolchainContentCore_data (os compiler arch build_type : String) :
    (XppConan.toolchainContentCore os compiler arch build_type).data =
      "os=".data ++ (os.data ++ '\n' ::
        ("compiler=".data ++ (compiler.data ++ '\n' ::
          ("arch=".data ++ (arch.data ++ '\n' ::
            ("build_type=".data ++ (build_type.data ++ '\n' ::
              ("generator=".data ++
                XppConan.toolchainGeneratorName.data)))))))) := by
  simp [XppConan.toolchainContentCore, String.data_append, List.append_assoc]

/-- The toolchain descriptor content determines the four encoded fields,
as long as none of them contains a newline. -/
theorem toolchainContentCore_inj
    (os₁ c₁ a₁ b₁ os₂ c₂ a₂ b₂ : String)
    (h1 : newlineFree os₁) (h2 : newlineFree c₁) (h3 : newlineFree a₁)
    (h4 : newlineFree b₁) (h5 : newlineFree os₂) (h6 : newlineFree c₂)
    (h7 : newlineFree a₂) (h8 : newlineFree b₂)
    (he : XppConan.toolchainContentCore os₁ c₁ a₁ b₁ =
      XppConan.toolchainContentCore os₂ c₂ a₂ b₂) :
    os₁ = os₂ ∧ c₁ = c₂ ∧ a₁ = a₂ ∧ b₁ = b₂ := by
  have hd := congrArg String.data he
  rw [toolchainContentCore_data, toolchainContentCore_data] at hd
  obtain ⟨e1, hd⟩ := key_line_inj _ _ _ _ _ h1 h5 hd
  obtain ⟨e2, hd⟩ := key_line_inj _ _ _ _ _ h2 h6 hd
  obtain ⟨e3, hd⟩ := key_line_inj _ _ _ _ _ h3 h7 hd
  obtain ⟨e4, _⟩ := key_line_inj _ _ _ _ _ h4 h8 hd
  exact ⟨String.ext e1, String.ext e2, String.ext e3, String.ext e4⟩

/-- C8: the toolchain generator emits exactly one descriptor, placed under
`generator_root`, whose content carries the chosen concurrent-build
executor selector as its final line and determines the Profile's os,
compiler, architecture and normalized variant (for newline-free
fields). -/
theorem XppConan.toolchain_descriptor_encodes_profile
    (p₁ p₂ : Profile) (l : Layout)
    (h1 : newlineFree p₁.os) (h2 : newlineFree p₁.compiler)
    (h3 : newlineFree p₁.arch) (h4 : newlineFree (pyLower p₁.variant))
    (h5 : newlineFree p₂.os) (h6 : newlineFree p₂.compiler)
    (h7 : newlineFree p₂.arch) (h8 : newlineFree (pyLower p₂.variant)) :
    (XppConan.toolchainGenerate p₁ l).length = 1 ∧
      (∀ d ∈ XppConan.toolchainGenerate p₁ l,
        d.category = Category.toolchain ∧
          isStrictSubPath d.path l.generator_root) ∧
      List.IsSuffix ("generator=" ++ XppConan.toolchainGeneratorName).data
        (XppConan.toolchainContent p₁).data ∧
      (XppConan.toolchainContent p₁ = XppConan.toolchainContent p₂ →
        p₁.os = p₂.os ∧ p₁.compiler = p₂.compiler ∧ p₁.arch = p₂.arch ∧
          pyLower p₁.variant = pyLower p₂.variant) := by
  refine ⟨rfl, ?_, ?_, ?_⟩
  · intro d hd
    have hdm : d = ⟨Category.toolchain,
        l.generator_root ++ "/" ++ XppConan.toolchainFileName,
        XppConan.toolchainContent p₁⟩ := by
      simpa [XppConan.toolchainGenerate] using hd
    subst hdm
    exact ⟨rfl, ⟨XppConan.toolchainFileName, by decide, rfl⟩⟩
  · exact ⟨("os=" ++ p₁.os ++ "\n" ++ "compiler=" ++ p₁.compiler ++ "\n" ++
      "arch=" ++ p₁.arch ++ "\n" ++ "build_type=" ++ pyLower p₁.variant ++
      "\n").data,
      by simp [XppConan.toolchainContent, XppConan.toolchainContentCore,
        String.data_append, List.append_assoc]⟩
  · intro he
    exact toolchainContentCore_inj _ _ _ _ _ _ _ _ h1 h2 h3 h4 h5 h6 h7 h8 he

/-- Witness for C8 at concrete Profiles whose variants differ only in
case. -/
theorem XppConan.toolchain_descriptor_encodes_profile_witness :
    (XppConan.toolchainGenerate ⟨"linux", "gcc-13", "x86_64", "Release", none⟩
        (XppConan.layout ⟨"linux", "gcc-13", "x86_64", "Release", none⟩)).length = 1 ∧
      (∀ d ∈ XppConan.toolchainGenerate ⟨"linux", "gcc-13", "x86_64", "Release", none⟩
          (XppConan.layout ⟨"linux", "gcc-13", "x86_64", "Release", none⟩),
        d.category = Category.toolchain ∧
          isStrictSubPath d.path
            (XppConan.layout
              ⟨"linux", "gcc-13", "x86_64", "Release", none⟩).generator_root) ∧
      List.IsSuffix ("generator=" ++ XppConan.toolchainGeneratorName).data
        (XppConan.toolchainContent
          ⟨"linux", "gcc-13", "x86_64", "Release", none⟩).data ∧
      (XppConan.toolchainContent ⟨"linux", "gcc-13", "x86_64", "Release", none⟩ =
          XppConan.toolchainContent ⟨"linux", "gcc-13", "x86_64", "RELEASE", some true⟩ →
        "linux" = "linux" ∧ "gcc-13" = "gcc-13" ∧ "x86_64" = "x86_64" ∧
          pyLower "Release" = pyLower "RELEASE") :=
  XppConan.toolchain_descriptor_encodes_profile
    ⟨"linux", "gcc-13", "x86_64", "Release", none⟩
    ⟨"linux", "gcc-13", "x86_64", "RELEASE", some true⟩
    (XppConan.layout ⟨"linux", "gcc-13", "x86_64", "Release", none⟩)
    (by decide) (by decide) (by decide) (by decide)
    (by decide) (by decide) (by decide) (by decide)

theorem firstDup_eq_none_iff (l : List String) :
    XppConan.firstDup l = none ↔ l.Nodup := by
  induction l with
  | nil => simp [XppConan.firstDup]
  | cons n rest ih =>
    by_cases h : n ∈ rest <;> simp [XppConan.firstDup, h, ih]

/-- Sequential writes resolve to the last write per path, over the initial
map. -/
theorem applyWrites_apply (ds : List DescriptorFile) (fs : FS) (q : String) :
    applyWrites ds fs q = overr (lastWrite ds q) (fs q) := by
  induction ds generalizing fs with
  | nil => rfl
  | cons d ds ih =>
    show applyWrites ds (writeFile fs d.path d.content) q = _
    rw [ih]
    simp only [lastWrite]
    cases h : lastWrite ds q with
    | some c => simp [overr]
    | none =>
      simp only [overr, writeFile]
      by_cases hq : q = d.path <;> simp [hq]

/-- Re-applying the same write sequence changes nothing. -/
theorem applyWrites_idem (ds : List DescriptorFile) (fs : FS) :
    applyWrites ds (applyWrites ds fs) = applyWrites ds fs := by
  funext q
  simp only [applyWrites_apply]
  cases lastWrite ds q <;> simp [overr]

/-- C6: running the generation-only orchestrator a second time on the
state the first run left behind returns the same terminal status and a
byte-identical filesystem — in particular byte-identical descriptor
files. -/
theorem XppConan.generation_only_idempotent (p : Profile)
    (deps : List DepEntry) (fs : FS) :
    XppConan.runGenerationOnly p deps (XppConan.runGenerationOnly p deps fs).2 =
      XppConan.runGenerationOnly p deps fs := by
  cases h : XppConan.validate deps with
  | error e => simp [XppConan.runGenerationOnly, h]
  | ok u => simp [XppConan.runGenerationOnly, h, applyWrites_idem]

/-- C7: a Dependency Declaration containing two entries with the same name
is rejected by validation with a duplicate-dependency error, and the
orchestrator run writes no descriptor file (the filesystem is returned
unchanged). -/
theorem XppConan.duplicate_dependency_rejected (p : Profile)
    (deps : List DepEntry) (fs : FS)
    (h : ¬ (deps.map DepEntry.name).Nodup) :
    ∃ n, XppConan.validate deps = .error (.DuplicateDependency n) ∧
      XppConan.runGenerationOnly p deps fs =
        (.error (.Config (.DuplicateDependency n)), fs) := by
  cases hd : XppConan.firstDup (deps.map DepEntry.name) with
  | none => exact absurd ((firstDup_eq_none_iff _).mp hd) h
  | some n =>
    refine ⟨n, ?_, ?_⟩
    · simp [XppConan.validate, hd]
    · simp [XppConan.runGenerationOnly, XppConan.validate, hd]

/-- Witness for C7 at a concrete declaration with a duplicated name. -/
theorem XppConan.duplicate_dependency_rejected_witness :
    ¬ ((([⟨"libA", "^2.0"⟩, ⟨"libA", "3.1"⟩] : List DepEntry)).map
        DepEntry.name).Nodup ∧
      ∃ n, XppConan.validate [⟨"libA", "^2.0"⟩, ⟨"libA", "3.1"⟩] =
          .error (.DuplicateDependency n) ∧
        XppConan.runGenerationOnly ⟨"linux", "gcc-13", "x86_64", "release", none⟩
            [⟨"libA", "^2.0"⟩, ⟨"libA", "3.1"⟩] (fun _ => none) =
          (.error (.Config (.DuplicateDependency n)), fun _ => none) :=
  ⟨by decide,
   XppConan.duplicate_dependency_rejected
     ⟨"linux", "gcc-13", "x86_64", "release", none⟩
     [⟨"libA", "^2.0"⟩, ⟨"libA", "3.1"⟩] (fun _ => none) (by decide)⟩

/-- C2: when the external configure phase exits non-zero, the run stops
with an external failure naming the configure phase and its captured
result, and the build phase is never invoked. -/
theorem XppConan.configure_failure_stops_build (ext : Phase → InvocationResult)
    (h : (ext Phase.configure).exit_code ≠ 0) :
    (XppConan.build ext).1 =
        .error (.ExternalFailure Phase.configure (ext Phase.configure)) ∧
      Phase.build ∉ (XppConan.build ext).2 := by
  simp [XppConan.build, h]

/-- Witness for C2: a stubbed external invoker whose configure phase exits
with code 1. -/
theorem XppConan.configure_failure_stops_build_witness :
    (XppConan.build (fun _ => ⟨Phase.configure, 1, "", "boom"⟩)).1 =
        .error (.ExternalFailure Phase.configure ⟨Phase.configure, 1, "", "boom"⟩) ∧
      Phase.build ∉ (XppConan.build (fun _ => ⟨Phase.configure, 1, "", "boom"⟩)).2 :=
  XppConan.configure_failure_stops_build
    (fun _ => ⟨Phase.configure, 1, "", "boom"⟩) (by decide)

/-- C10: the static requires list is well-formed — every entry has a
non-empty name and a non-empty version spec, no two entries share a name
under case-sensitive comparison, and the declaration validator accepts
it. -/
theorem XppConan.requires_list_well_formed :
    (∀ e ∈ XppConan.requiresEntries, e.name ≠ "" ∧ e.version_spec ≠ "") ∧
      (XppConan.requiresEntries.map DepEntry.name).Nodup ∧
      XppConan.validate XppConan.requiresEntries = .ok () := by
  refine ⟨by decide, by decide, rfl⟩

theorem XppConan.shared_option_default_false_witness :
    XppConan.sharedOf ⟨"linux", "gcc-13", "x86_64", "Release", none⟩ = false ∧
      XppConan.default_options_shared = false ∧
      (∀ v : Bool, v ∈ XppConan.options_shared_values ↔ (v = true ∨ v = false)) :=
  XppConan.shared_option_default_false
    ⟨"linux", "gcc-13", "x86_64", "Release", none⟩ rfl

end Xpp
